import Mathlib

/-!
Verification of the wc_model_gen submodel generation and calibration pipeline,
as a shallow embedding of the Python sources in `src/wc_model_gen`.

Conventions of the embedding:
* Python floats are modelled as `ℚ` (exact field arithmetic) so that every
  definition is executable and witnesses can be checked by `decide`/`rfl`.
* `math.log(2)` is a constant supplied by the external `math` module (out of
  scope per the spec); functions that use it take its value `ln2` as an
  explicit argument.
* Python code that can raise is modelled with `Except String`; a raised
  `ZeroDivisionError` becomes
  `Except.error "ZeroDivisionError: float division by zero"`.
* Mutation of model objects is modelled by explicit state passing.
-/

namespace WcModelGen

/-! ## Embedding of `src/wc_model_gen/utils.py`: average rates

`calc_avg_syn_rate` and `calc_avg_deg_rate` (utils.py lines 16-44) are pure
arithmetic over floats. -/

/-- `calc_avg_syn_rate(mean_concentration, half_life, mean_doubling_time)`,
utils.py line 27:
`math.log(2) * (1. / mean_doubling_time + 1. / half_life) * mean_concentration`,
with `ln2` the value of `math.log(2)`. -/
def calc_avg_syn_rate (ln2 mean_concentration half_life mean_doubling_time : ℚ) : ℚ :=
  ln2 * (1 / mean_doubling_time + 1 / half_life) * mean_concentration

/-- `calc_avg_deg_rate(mean_concentration, half_life)`, utils.py line 42:
`math.log(2) / half_life * mean_concentration`, with `ln2` the value of
`math.log(2)`. -/
def calc_avg_deg_rate (ln2 mean_concentration half_life : ℚ) : ℚ :=
  ln2 / half_life * mean_concentration

/-- Python float division: `a / b` raises `ZeroDivisionError` when `b == 0`. -/
def pyDiv (a b : ℚ) : Except String ℚ :=
  if b = 0 then Except.error "ZeroDivisionError: float division by zero"
  else Except.ok (a / b)

/-- Run-time behaviour of `calc_avg_syn_rate` (utils.py line 27): Python
evaluates `1. / mean_doubling_time` first, then `1. / half_life`, either of
which raises on a zero denominator; otherwise the product is returned. -/
def calc_avg_syn_rate_run (ln2 mean_concentration half_life mean_doubling_time : ℚ) :
    Except String ℚ :=
  match pyDiv 1 mean_doubling_time with
  | Except.error e => Except.error e
  | Except.ok inv_d =>
    match pyDiv 1 half_life with
    | Except.error e => Except.error e
    | Except.ok inv_h => Except.ok (ln2 * (inv_d + inv_h) * mean_concentration)

/-- Run-time behaviour of `calc_avg_deg_rate` (utils.py line 42):
`math.log(2) / half_life` raises when the half-life is zero. -/
def calc_avg_deg_rate_run (ln2 mean_concentration half_life : ℚ) : Except String ℚ :=
  match pyDiv ln2 half_life with
  | Except.error e => Except.error e
  | Except.ok q => Except.ok (q * mean_concentration)

/-- The half-life patch applied by callers before using the rate helpers,
`src/wc_model_gen/prokaryote/translation.py` lines 106-107 and 138-139:
`if protein_kb.half_life == 0: protein_kb.half_life = 12*60*60`. -/
def patch_half_life (half_life : ℚ) : ℚ :=
  if half_life = 0 then 12 * 60 * 60 else half_life

/-! ## Embedding of the wc_lang entities used by the rate-law templates

Only the attributes the templates read are modelled. A species is identified
by its species-type id and its compartment id, as in wc_lang, where
`Species.gen_id()` is `"<species_type.id>[<compartment.id>]"`. -/

/-- A `wc_lang.Species`: the pair of species-type id and compartment id. -/
structure Species where
  species_type_id : String
  compartment_id : String
deriving DecidableEq, Repr

/-- `wc_lang.Species.gen_id()`. -/
def Species.gen_id (s : Species) : String :=
  s.species_type_id ++ "[" ++ s.compartment_id ++ "]"

/-- A `wc_lang.Observable` as the templates use it: its id and the species of
its expression (`modifier.expression.species`). -/
structure Observable where
  id : String
  expression_species : List Species
deriving DecidableEq, Repr

/-- A `wc_lang.Reaction` as the templates use it: its id and its participants,
each a species with a signed integer coefficient. -/
structure Reaction where
  id : String
  participants : List (Species × ℤ)
deriving DecidableEq, Repr

/-- `wc_lang.Reaction.get_reactants()`: the species of the participants with a
negative coefficient, in participant order. -/
def Reaction.get_reactants (r : Reaction) : List Species :=
  (r.participants.filter (fun p => p.2 < 0)).map (·.1)

/-- `wc_lang.Reaction.get_products()`: the species of the participants with a
positive coefficient, in participant order. -/
def Reaction.get_products (r : Reaction) : List Species :=
  (r.participants.filter (fun p => p.2 > 0)).map (·.1)

/-- A `wc_lang.Parameter` as the templates create it: id and units string. -/
structure Parameter where
  id : String
  units : String
deriving DecidableEq, Repr

/-- Assignment `parameters[p.id] = p` into the `parameters` dict of the
templates: replaces an entry with the same id, otherwise appends. -/
def insertParam (ps : List Parameter) (p : Parameter) : List Parameter :=
  if ps.any (fun q => q.id = p.id) then
    ps.map (fun q => if q.id = p.id then p else q)
  else ps ++ [p]

/-- The species that belong to some modifier observable, utils.py line 80 /
line 170: `[i for modifier in modifiers for i in modifier.expression.species]`. -/
def modifier_species (modifiers : List Observable) : List Species :=
  (modifiers.map (·.expression_species)).flatten

/-! ## Embedding of `gen_michaelis_menten_like_rate_law` (utils.py lines 47-137)

The template is parameterized by `volume_id`, the mapping from a compartment id
to the id of its volume function
(`species.compartment.init_density.function_expressions[0].function`, line
116), which is owned by the model container and is outside the template. The
`modifiers=None` default behaves exactly like the empty list (both are falsy
in the string-building conditionals), so `modifiers` is a plain list here. -/

/-- The saturation term built at utils.py lines 119-122:
`'({} / ({} + {} * {} * {}))'.format(gen_id, gen_id, K_m_id, 'Avogadro', volume_id)`. -/
def mm_saturation_term (volume_id : String → String) (reaction_id : String)
    (s : Species) : String :=
  "(" ++ s.gen_id ++ " / (" ++ s.gen_id ++ " + K_m_" ++ reaction_id ++ "_" ++
    s.species_type_id ++ " * Avogadro * " ++ volume_id s.compartment_id ++ "))"

/-- The result of `gen_michaelis_menten_like_rate_law`: the expression string
handed to `wc_lang.RateLawExpression.deserialize`, the namespaces it is
resolved against, and the parameter list returned. -/
structure MMRateLaw where
  expression : String
  all_species : List Species
  parameters : List Parameter
deriving Repr

/-- The reactants kept by the loop condition at utils.py line 107:
`species not in modifier_species or species in additional_reactants`. -/
def mm_kept_reactants (reaction : Reaction) (modifiers : List Observable)
    (modifier_reactants : List Species) : List Species :=
  reaction.get_reactants.filter
    (fun s => s ∉ modifier_species modifiers ∨ s ∈ modifier_reactants)

/-- The `k_cat` parameter id of utils.py line 96. -/
def mm_k_cat_id (reaction : Reaction) : String :=
  "k_cat_" ++ reaction.id

/-- The `k_cat` units of utils.py lines 98-99:
`'s^-1' + (' * molecule^{-N}' if modifiers else '')`. -/
def mm_k_cat_units (modifiers : List Observable) : String :=
  "s^-1" ++
    (if modifiers.isEmpty then "" else
      " * molecule^-" ++ toString modifiers.length)

/-- The `parameters` dict of `gen_michaelis_menten_like_rate_law` (utils.py
lines 87-114): Avogadro, then the single `k_cat`, then one
`K_m_<reaction.id>_<species_type.id>` parameter with units `M` per kept
reactant, with dict-assignment (replace-by-id) semantics. -/
def mm_parameters (reaction : Reaction) (modifiers : List Observable)
    (modifier_reactants : List Species) : List Parameter :=
  (mm_kept_reactants reaction modifiers modifier_reactants).foldl
    (fun a s => insertParam a ⟨"K_m_" ++ reaction.id ++ "_" ++ s.species_type_id, "M"⟩)
    (insertParam (insertParam [] ⟨"Avogadro", "molecule mol^-1"⟩)
      ⟨mm_k_cat_id reaction, mm_k_cat_units modifiers⟩)

/-- The expression string of utils.py lines 124-127: the `k_cat` id, times the
modifier ids, times the saturation terms of the kept reactants, each part
joined by `' * '` and omitted when its list is empty. -/
def mm_expression_str (volume_id : String → String) (reaction : Reaction)
    (modifiers : List Observable) (modifier_reactants : List Species) : String :=
  mm_k_cat_id reaction ++
    (if modifiers.isEmpty then "" else
      " * " ++ String.intercalate " * " (modifiers.map (·.id))) ++
    (if ((mm_kept_reactants reaction modifiers modifier_reactants).map
          (mm_saturation_term volume_id reaction.id)).isEmpty then ""
     else " * " ++ String.intercalate " * "
       ((mm_kept_reactants reaction modifiers modifier_reactants).map
         (mm_saturation_term volume_id reaction.id)))

/-- `gen_michaelis_menten_like_rate_law(model, reaction, modifiers,
modifier_reactants)`, utils.py lines 47-137. The loop at lines 105-122 keeps a
reactant when `species not in modifier_species or species in
additional_reactants`; for each kept reactant it creates a
`K_m_<reaction.id>_<species_type.id>` parameter with units `M` and appends a
saturation term; the kept reactants are also the species namespace the
expression is deserialized against (line 109). -/
def gen_michaelis_menten_like_rate_law (volume_id : String → String)
    (reaction : Reaction) (modifiers : List Observable)
    (modifier_reactants : List Species) : MMRateLaw :=
  { expression := mm_expression_str volume_id reaction modifiers modifier_reactants
    all_species := mm_kept_reactants reaction modifiers modifier_reactants
    parameters := mm_parameters reaction modifiers modifier_reactants }

/-! ## Embedding of `gen_mass_action_rate_law` (utils.py lines 140-237) -/

/-- The rate-constant unit computed at utils.py lines 181-187 from
`model_k_unit = len(reaction.get_reactants()) - 1`. -/
def mass_action_k_unit (reaction : Reaction) : String :=
  let u : ℤ := (reaction.get_reactants.length : ℤ) - 1
  if u = 0 then "s^-1"
  else if u = -1 then "s^-1 * molecule"
  else "s^-1 * molecule^" ++ toString (-u)

/-- The result of a successful `gen_mass_action_rate_law` call. -/
structure MassActionRateLaw where
  expression : String
  all_species : List Species
  model_k : Parameter
deriving Repr

/-- The species pool of the loop at utils.py line 208:
`set(reaction.get_reactants()).union(set(reaction.get_products()))`, modelled
as the deduplicated concatenation (dict/namespace membership does not depend
on the set's iteration order). -/
def mass_action_pool (reaction : Reaction) : List Species :=
  (reaction.get_reactants ++ reaction.get_products).dedup

/-- The `all_species` namespace built at utils.py lines 209-212: a pool
species enters it only when
`species not in modifier_species or species in additional_reactants`. -/
def mass_action_namespace (reaction : Reaction) (modifiers : List Observable)
    (modifier_reactants : List Species) : List Species :=
  (mass_action_pool reaction).filter
    (fun s => s ∉ modifier_species modifiers ∨ s ∈ modifier_reactants)

/-- The species referenced by the expression, utils.py lines 213-214: every
pool species that is a reactant is appended to `expression_terms`
unconditionally. -/
def mass_action_referenced (reaction : Reaction) : List Species :=
  (mass_action_pool reaction).filter (fun s => s ∈ reaction.get_reactants)

/-- The expression string built at utils.py lines 165-172 and 205-223:
`model_k.id + modifier_product + reactant_product`. -/
def mass_action_expression (reaction : Reaction) (model_k_id : String)
    (modifiers : List Observable) : String :=
  let modifier_product :=
    if modifiers.isEmpty then "" else
      " * " ++ String.intercalate " * " (modifiers.map (·.id))
  let expression_terms := (mass_action_referenced reaction).map Species.gen_id
  let reactant_product :=
    if expression_terms.isEmpty then "" else
      " * " ++ String.intercalate " * " expression_terms
  model_k_id ++ modifier_product ++ reactant_product

/-- `gen_mass_action_rate_law(model, reaction, model_k, modifiers,
modifier_reactants)`, utils.py lines 140-237.
`wc_lang.RateLawExpression.deserialize` (external; its contract is spec §4.1:
resolve every referenced symbol against the supplied namespace or fail)
succeeds exactly when every species referenced by the expression is in
`all_species`; the `assert error is None` at line 233 turns an unresolved
symbol into a failure of the whole call, modelled as `none`. -/
def gen_mass_action_rate_law (reaction : Reaction) (model_k_id : String)
    (modifiers : List Observable) (modifier_reactants : List Species) :
    Option MassActionRateLaw :=
  if (mass_action_referenced reaction).all
      (fun s => s ∈ mass_action_namespace reaction modifiers modifier_reactants) then
    some { expression := mass_action_expression reaction model_k_id modifiers
           all_species := mass_action_namespace reaction modifiers modifier_reactants
           model_k := ⟨model_k_id, mass_action_k_unit reaction⟩ }
  else none

/-! ## Embedding of `src/wc_model_gen/eukaryote/transcription.py`

### Sequences

DNA and RNA sequences are lists over the four-letter alphabets; `get_seq()`
upper-cases before counting, so the alphabet is taken as already upper-case. -/

/-- A DNA base. -/
inductive DnaBase | A | C | G | T
deriving DecidableEq, Repr

/-- An RNA base. -/
inductive RnaBase | A | C | G | U
deriving DecidableEq, Repr

/-- The Watson-Crick complement of a DNA base. -/
def DnaBase.complement : DnaBase → DnaBase
  | DnaBase.A => DnaBase.T
  | DnaBase.T => DnaBase.A
  | DnaBase.C => DnaBase.G
  | DnaBase.G => DnaBase.C

/-- `Seq.reverse_complement()`. -/
def reverse_complement (s : List DnaBase) : List DnaBase :=
  (s.map DnaBase.complement).reverse

/-- `Seq.transcribe()`: T becomes U. -/
def transcribe (s : List DnaBase) : List RnaBase :=
  s.map (fun b => match b with
    | DnaBase.A => RnaBase.A
    | DnaBase.C => RnaBase.C
    | DnaBase.G => RnaBase.G
    | DnaBase.T => RnaBase.U)

/-- `seq.upper().count(x)` for an RNA sequence. -/
def countBase (b : RnaBase) (s : List RnaBase) : ℕ :=
  (s.filter (fun x => x = b)).length

/-- The strand of a gene (`wc_kb.core.PolymerStrand`). -/
inductive Strand | positive | negative
deriving DecidableEq, Repr

/-- The pre-RNA sequence of transcription.py lines 312-315: the gene sequence
transcribed, reverse-complemented first when the gene is on the negative
strand. -/
def pre_rna_seq (gene_seq : List DnaBase) : Strand → List RnaBase
  | Strand.positive => transcribe gene_seq
  | Strand.negative => transcribe (reverse_complement gene_seq)

/-- The `ntp_count` dictionary of transcription.py lines 317-327: the base
counts and length of the spliced transcript sequence `rna_kb.get_seq()`
(computed fresh or read back from the `gvar.transcript_ntp_usage` cache, which
holds exactly these values). -/
structure NtpCount where
  A : ℕ
  C : ℕ
  G : ℕ
  U : ℕ
  len : ℕ
deriving DecidableEq, Repr

/-- transcription.py lines 320-327. -/
def ntp_count_of (transcript_seq : List RnaBase) : NtpCount :=
  { A := countBase RnaBase.A transcript_seq
    C := countBase RnaBase.C transcript_seq
    G := countBase RnaBase.G transcript_seq
    U := countBase RnaBase.U transcript_seq
    len := transcript_seq.length }

/-- The signed participant coefficients of one transcription elongation
reaction, transcription.py lines 329-376. Each field is the coefficient of the
species named after it (consumption negative, production positive); every
listed species is appended exactly once. -/
structure ElongationReaction where
  polr_bound : ℤ
  atp : ℤ
  ctp : ℤ
  gtp : ℤ
  utp : ℤ
  h2o : ℤ
  rna : ℤ
  ppi : ℤ
  amp : ℤ
  cmp : ℤ
  gmp : ℤ
  ump : ℤ
  h : ℤ
  polr_complex : ℤ
  polr_binding_site : ℤ
deriving DecidableEq, Repr

/-- `gen_reactions`, elongation part (transcription.py lines 304-376), for the
transcript with gene sequence `gene_seq` on strand `strand` and spliced
transcript sequence `transcript_seq`. -/
def gen_elongation_reaction (gene_seq : List DnaBase) (strand : Strand)
    (transcript_seq : List RnaBase) : ElongationReaction :=
  let pre := pre_rna_seq gene_seq strand
  let cnt := ntp_count_of transcript_seq
  { polr_bound := -1
    atp := -(countBase RnaBase.A pre : ℤ)
    ctp := -(countBase RnaBase.C pre : ℤ)
    gtp := -(countBase RnaBase.G pre : ℤ)
    utp := -(countBase RnaBase.U pre : ℤ)
    h2o := -((pre.length : ℤ) - (cnt.len : ℤ) - 1)
    rna := 1
    ppi := (pre.length : ℤ) - 1
    amp := (countBase RnaBase.A pre : ℤ) - (cnt.A : ℤ)
    cmp := (countBase RnaBase.C pre : ℤ) - (cnt.C : ℤ)
    gmp := (countBase RnaBase.G pre : ℤ) - (cnt.G : ℤ)
    ump := (countBase RnaBase.U pre : ℤ) - (cnt.U : ℤ)
    h := (pre.length : ℤ) - (cnt.len : ℤ) - 1
    polr_complex := 1
    polr_binding_site := 1 }

/-- Total NTP consumption of an elongation reaction: the sum of the magnitudes
of the (negative) ATP, CTP, GTP and UTP coefficients. -/
def ntp_consumed (r : ElongationReaction) : ℤ :=
  -(r.atp + r.ctp + r.gtp + r.utp)

/-- Total NMP production of an elongation reaction: the sum of the AMP, CMP,
GMP and UMP coefficients. -/
def nmp_produced (r : ElongationReaction) : ℤ :=
  r.amp + r.cmp + r.gmp + r.ump

/-! ### Options validation (`clean_and_validate_options`, transcription.py lines 49-71) -/

/-- The options dictionary passed to `TranscriptionSubmodelGenerator`,
restricted to the keys `clean_and_validate_options` reads. `none` stands for
an absent key; `rna_pol_pair` is the RNA-id-to-polymerase map, kept abstract
as an association list. -/
structure TranscriptionOptions where
  rna_pol_pair : Option (List (String × String))
  beta : Option ℚ
  beta_activator : Option ℚ
  beta_repressor : Option ℚ
  activator_effect : Option ℚ
  polr_occupancy_width : Option ℤ
deriving DecidableEq, Repr

/-- The options after `clean_and_validate_options` returned: every key
present. -/
structure CleanTranscriptionOptions where
  rna_pol_pair : List (String × String)
  beta : ℚ
  beta_activator : ℚ
  beta_repressor : ℚ
  activator_effect : ℚ
  polr_occupancy_width : ℤ
deriving DecidableEq, Repr

/-- `clean_and_validate_options` (transcription.py lines 49-71): raises
`ValueError` when `rna_pol_pair` is absent, otherwise fills each remaining
option with `options.get(key, default)` using the defaults
`beta = 1`, `beta_activator = 1`, `beta_repressor = 1`,
`activator_effect = 1.2`, `polr_occupancy_width = 80`. -/
def clean_and_validate_options (options : TranscriptionOptions) :
    Except String CleanTranscriptionOptions :=
  match options.rna_pol_pair with
  | none => Except.error "The dictionary rna_pol_pair has not been provided"
  | some pair =>
    Except.ok
      { rna_pol_pair := pair
        beta := options.beta.getD 1
        beta_activator := options.beta_activator.getD 1
        beta_repressor := options.beta_repressor.getD 1
        activator_effect := options.activator_effect.getD 1.2
        polr_occupancy_width := options.polr_occupancy_width.getD 80 }

/-- One transcript's input to reaction generation: its gene sequence, strand
and spliced sequence. -/
structure TranscriptInput where
  gene_seq : List DnaBase
  strand : Strand
  transcript_seq : List RnaBase

/-- The submodel pipeline up to reaction generation (spec §4.4: phases run in
order and a failing `clean_and_validate_options` aborts the submodel before
any reaction is generated): validate the options, then generate the elongation
reactions. -/
def transcription_phases (options : TranscriptionOptions)
    (transcripts : List TranscriptInput) :
    Except String (List ElongationReaction) :=
  match clean_and_validate_options options with
  | Except.error e => Except.error e
  | Except.ok _ =>
    Except.ok (transcripts.map
      (fun t => gen_elongation_reaction t.gene_seq t.strand t.transcript_seq))

/-! ### Concentration records (`model.distribution_init_concentrations`)

The claims about the species-concentration lifecycle concern which phase
mutates which record's mean. The collection of
`wc_lang.DistributionInitConcentration` records is modelled as an association
list from the species id to its mean; a mean of `none` is a record created
without a mean (transcription.py lines 268-271). -/

/-- The concentration records: species id, mean (none when never set). -/
abbrev ConcState := List (String × Option ℚ)

/-- Look up the record of a species (first record wins): `none` when no
record exists. -/
def conc_get : ConcState → String → Option (Option ℚ)
  | [], _ => none
  | e :: t, species_id =>
    if e.1 = species_id then some e.2 else conc_get t species_id

/-- Mutate the mean of an existing record (`conc.mean = value`). -/
def conc_set_mean (st : ConcState) (species_id : String) (mean : Option ℚ) :
    ConcState :=
  st.map (fun e => if e.1 = species_id then (e.1, mean) else e)

/-- `model.distribution_init_concentrations.create(species=..., mean=...)`:
always appends a new record. -/
def conc_create (st : ConcState) (species_id : String) (mean : Option ℚ) :
    ConcState :=
  st ++ [(species_id, mean)]

/-- `model.distribution_init_concentrations.get_or_create(species=..., mean=...)`:
keeps the state unchanged when a record for the species exists, else creates. -/
def conc_get_or_create (st : ConcState) (species_id : String) (mean : Option ℚ) :
    ConcState :=
  if st.any (fun e => e.1 = species_id) then st else st ++ [(species_id, mean)]

/-- The concentration mutations `gen_reactions` performs for one RNA
polymerase (transcription.py lines 148-192): read the mean of the free
polymerase's pre-existing record into `self._total_polr`, overwrite that mean
with `math.floor(0.75 * mean)` (lines 153-154), then get-or-create the
non-specific-binding-site record with mean `genome_sites` (lines 167-175) and
the polymerase-bound-non-specific-site record with mean
`math.floor(total * 0.2475)` (lines 186-192). -/
def gen_reactions_polr_conc (polr_species_id ns_site_id bound_ns_id : String)
    (genome_sites : ℤ) (st : ConcState) : ConcState :=
  let total := (((conc_get st polr_species_id).getD none).getD 0)
  let st1 := conc_set_mean st polr_species_id
    (some ((⌊(3 / 4 : ℚ) * total⌋ : ℤ) : ℚ))
  let st2 := conc_get_or_create st1 ns_site_id (some (genome_sites : ℚ))
  conc_get_or_create st2 bound_ns_id
    (some ((⌊total * (2475 / 10000 : ℚ)⌋ : ℤ) : ℚ))

/-- The concentration records `gen_reactions` creates for one transcript
(transcription.py lines 246-271): the gene binding site with mean
`math.floor(len(gene_seq)/polr_occupancy_width) + 1` and the gene-bound
polymerase with no mean. -/
def gen_reactions_rna_conc (binding_site_id bound_gene_id : String)
    (gene_len : ℕ) (polr_occupancy_width : ℤ) (st : ConcState) : ConcState :=
  let st1 := conc_create st binding_site_id
    (some ((⌊(gene_len : ℚ) / (polr_occupancy_width : ℚ)⌋ + 1 : ℤ) : ℚ))
  conc_create st1 bound_gene_id none

/-- The only concentration mutation in `calibrate_submodel`
(transcription.py lines 752-758): set the gene-bound polymerase mean to the
computed `polr_gene_bound_conc`. -/
def calibrate_bound_gene_conc (bound_gene_id : String) (value : ℚ)
    (st : ConcState) : ConcState :=
  conc_set_mean st bound_gene_id (some value)

/-! ### k_cat calibration (`calibrate_submodel`, transcription.py lines 746-791) -/

/-- The data `calibrate_submodel` uses to calibrate one elongation k_cat:
`polr_gene_bound_conc` (line 752), the target average synthesis rate
`average_rate[rna_kb.id]` (line 661), and the value of the elongation rate-law
expression evaluated at the initial species counts with `k_cat = 1`
(lines 777-783). -/
structure KcatCalibInput where
  polr_gene_bound_conc : ℚ
  average_rate : ℚ
  rate_eval : ℚ
deriving DecidableEq, Repr

/-- The truthiness test at line 776:
`if polr_gene_bound_conc and average_rate[rna_kb.id]:`. -/
def kcat_determined (e : KcatCalibInput) : Bool :=
  decide (e.polr_gene_bound_conc ≠ 0) && decide (e.average_rate ≠ 0)

/-- The value solved at lines 777-783: with `k_cat` set to 1 the expression
evaluates to `rate_eval`, so `k_cat = average_rate / rate_eval`. -/
def kcat_solved_value (e : KcatCalibInput) : ℚ :=
  e.average_rate / e.rate_eval

/-- Insertion into a sorted list, ascending. -/
def insertSorted (x : ℚ) : List ℚ → List ℚ
  | [] => [x]
  | y :: ys => if x ≤ y then x :: y :: ys else y :: insertSorted x ys

/-- Sort a list of rationals ascending. -/
def sortQ (l : List ℚ) : List ℚ :=
  l.foldr insertSorted []

/-- `numpy.median` on a non-empty list: the middle element of the sorted list
for odd length, the mean of the two middle elements for even length. (numpy
returns NaN on an empty list; here the empty case is given the junk value 0
and every theorem about the median carries a non-emptiness hypothesis.) -/
def npMedian (l : List ℚ) : ℚ :=
  let s := sortQ l
  let n := s.length
  if n = 0 then 0
  else if n % 2 = 1 then s.getD (n / 2) 0
  else (s.getD (n / 2 - 1) 0 + s.getD (n / 2) 0) / 2

/-- First pass of the k_cat calibration loop (transcription.py lines
748-786), restricted to its effect on the k_cat parameters: per transcript,
when `polr_gene_bound_conc and average_rate` holds the k_cat is set to the
solved value and appended to `determined_kcat`; otherwise the parameter is
appended to `undetermined_model_kcat` (its value still unset, `none`).
Returns the per-transcript assignment and the list of determined values, both
in loop order. -/
def calibrate_pass1 : List KcatCalibInput → List (Option ℚ) × List ℚ
  | [] => ([], [])
  | e :: rest =>
    let r := calibrate_pass1 rest
    if kcat_determined e then
      (some (kcat_solved_value e) :: r.1, kcat_solved_value e :: r.2)
    else (none :: r.1, r.2)

/-- The complete two-pass k_cat calibration (transcription.py lines 746-791):
run the loop over every transcript, then set every undetermined k_cat to
`numpy.median(determined_kcat)` (lines 788-791). Returns the final k_cat
value per transcript. -/
def calibrate_kcats (l : List KcatCalibInput) : List ℚ :=
  let r := calibrate_pass1 l
  let median_kcat := npMedian r.2
  r.1.map (fun v => v.getD median_kcat)

/-! ## The complexation generator (claim sources outside `src/`)

`wc_model_gen/eukaryote/complexation.py` is not among the sources; only its
test `src/tests/eukaryote/test_complexation.py` is. The reaction participants
that test asserts (lines 148-168) are recorded verbatim below, and a
generator for the subunit/complex stoichiometry is modelled from the spec
(§4.3), with the treatment of zero-coefficient subunits taken from those test
assertions. Participants are (species id, coefficient) pairs; the amino-acid
and water bookkeeping of the degradation part is outside the claims and is
not modelled. -/

/-- The subunit list of `complex1` in the test KB
(test_complexation.py lines 62-66): prot1 with coefficient 1, prot2 with 2,
prot3 with 0. -/
def complex1_subunits : List (String × ℕ) :=
  [("prot1", 1), ("prot2", 2), ("prot3", 0)]

/-- The participants of `complex_association_complex1_n` asserted at
test_complexation.py lines 152-153. -/
def complex1_association_participants : List (String × ℤ) :=
  [("prot1[n]", -1), ("prot2[n]", -2), ("prot3[n]", -1), ("complex1[n]", 1)]

/-- The participants of `complex1_n_dissociation_prot1_degradation` asserted
at test_complexation.py lines 159-160. -/
def complex1_dissociate_prot1_participants : List (String × ℤ) :=
  [("complex1[n]", -1), ("h2o[n]", -1), ("Ala[n]", 1), ("Cys[n]", 1),
   ("prot2[n]", 2), ("prot3[n]", 1)]

/-- The participants of `complex1_n_dissociation_prot2_degradation` asserted
at test_complexation.py lines 163-164. -/
def complex1_dissociate_prot2_participants : List (String × ℤ) :=
  [("complex1[n]", -1), ("h2o[n]", -1), ("Cys[n]", 1), ("Asp[n]", 1),
   ("prot1[n]", 1), ("prot2[n]", 1), ("prot3[n]", 1)]

/-- The participants of `complex1_n_dissociation_prot3_degradation` asserted
at test_complexation.py lines 166-168. -/
def complex1_dissociate_prot3_participants : List (String × ℤ) :=
  [("complex1[n]", -1), ("h2o[n]", -1), ("Asp[n]", 2),
   ("prot1[n]", 1), ("prot2[n]", 2)]

/-- Modelled from the spec: the subunit/complex stoichiometry of the
association reaction generated by `ComplexationSubmodelGenerator.gen_reactions`
(source file absent from `src/`); spec §4.3 "association reaction consumes
subunits per their coefficient producing one complex", with a coefficient-0
subunit consumed as 1 copy, as asserted by test_complexation.py line 153. -/
def gen_association_participants (complex_id compartment : String)
    (subunits : List (String × ℕ)) : List (String × ℤ) :=
  subunits.map (fun u => (u.1 ++ "[" ++ compartment ++ "]",
    -(max (u.2 : ℤ) 1))) ++
  [(complex_id ++ "[" ++ compartment ++ "]", 1)]

/-- Modelled from the spec: the subunit/complex stoichiometry of the
dissociation reaction that degrades subunit `target`, generated per subunit by
`ComplexationSubmodelGenerator.gen_reactions` (source file absent from
`src/`); spec §4.3 "per-subunit dissociation reactions each release that
subunit and redistribute the remaining subunits", where each subunit is
released `max(coefficient, 1)` times, less the one degraded copy of `target`,
and a released count of 0 is omitted, as asserted by test_complexation.py
lines 155-168. -/
def gen_dissociation_participants (complex_id compartment target : String)
    (subunits : List (String × ℕ)) : List (String × ℤ) :=
  [(complex_id ++ "[" ++ compartment ++ "]", -1)] ++
  subunits.filterMap (fun u =>
    if max (u.2 : ℤ) 1 - (if u.1 = target then 1 else 0) = 0 then none
    else some (u.1 ++ "[" ++ compartment ++ "]",
      max (u.2 : ℤ) 1 - (if u.1 = target then 1 else 0)))

/-! ## Concrete inputs used by counterexamples and witnesses -/

/-- A 6-base gene sequence (the first half of the `chr1` fixture
`GCGTGCGATGAT` of test_complexation.py line 29). -/
def c1_gene_seq : List DnaBase :=
  [DnaBase.G, DnaBase.C, DnaBase.G, DnaBase.T, DnaBase.G, DnaBase.C]

/-- A 4-base spliced transcript of that gene (exon bases 1-4). -/
def c1_transcript_seq : List RnaBase :=
  [RnaBase.G, RnaBase.C, RnaBase.G, RnaBase.U]

/-- A reaction with three reactant entries and one product, for the
mass-action unit witness. -/
def c8_reaction : Reaction :=
  { id := "r1"
    participants := [(⟨"s1", "c"⟩, -1), (⟨"s2", "c"⟩, -1), (⟨"s3", "c"⟩, -2),
                     (⟨"p1", "c"⟩, 1)] }

/-- Written from the spec's words (§4.2), for comparison with the generated
expression: the reactants that receive a saturation factor are "every reactant
not itself part of a modifier-observable (unless explicitly included via
`modifier_reactants`)". -/
def mm_spec_saturated_reactants (reaction : Reaction) (modifiers : List Observable)
    (modifier_reactants : List Species) : List Species :=
  reaction.get_reactants.filter
    (fun s => (¬ ∃ m ∈ modifiers, s ∈ m.expression_species) ∨ s ∈ modifier_reactants)

/-- The reaction of `test_utils.py test_MM_like_rate_law`: reactants `s1[c]`,
`s2[c]`, product `s3[c]`. -/
def c4_reaction : Reaction :=
  { id := "r1"
    participants := [(⟨"s1", "c"⟩, -1), (⟨"s2", "c"⟩, -1), (⟨"s3", "c"⟩, 1)] }

/-- The modifier observable of that test: `e1 = s4[c] + s5[c]`. -/
def c4_modifiers : List Observable :=
  [{ id := "e1", expression_species := [⟨"s4", "c"⟩, ⟨"s5", "c"⟩] }]

/-- A reaction whose only reactant `s4[c]` belongs to the modifier observable,
so that no reactant receives a saturation factor. -/
def c4_reaction_degenerate : Reaction :=
  { id := "r5"
    participants := [(⟨"s4", "c"⟩, -1), (⟨"s3", "c"⟩, 1)] }

/-- A reaction whose only reactant `s1[c]` belongs to the modifier observable
`e2`, the situation of the mass-action symbol-resolution claim. -/
def c6_reaction : Reaction :=
  { id := "r2"
    participants := [(⟨"s1", "c"⟩, -1), (⟨"p1", "c"⟩, 1)] }

/-- The modifier observable `e2 = s1[c]`. -/
def c6_modifiers : List Observable :=
  [{ id := "e2", expression_species := [⟨"s1", "c"⟩] }]

end WcModelGen

namespace WcModelGen

/-! ## Theorems -/

/-- The four base counts of an RNA sequence sum to its length. -/
theorem countBase_sum (l : List RnaBase) :
    countBase RnaBase.A l + countBase RnaBase.C l + countBase RnaBase.G l +
      countBase RnaBase.U l = l.length := by
  induction l with
  | nil => rfl
  | cons b t ih => cases b <;> simp [countBase, List.filter_cons] at ih ⊢ <;> omega

/-- C1 (amended): for the transcription elongation reaction generated for a
transcript (transcription.py lines 304-376), the total NTP consumption equals
the length of the pre-RNA (the transcribed gene sequence), the total NMP
production equals the pre-RNA length minus the transcript length, the water
coefficient is minus (pre-RNA length − transcript length − 1) and the proton
coefficient is plus (pre-RNA length − transcript length − 1), and the
pyrophosphate produced is the pre-RNA length minus 1. -/
theorem elongation_reaction_balance (gene_seq : List DnaBase) (strand : Strand)
    (transcript_seq : List RnaBase) :
    ntp_consumed (gen_elongation_reaction gene_seq strand transcript_seq) =
      ((pre_rna_seq gene_seq strand).length : ℤ) ∧
    nmp_produced (gen_elongation_reaction gene_seq strand transcript_seq) =
      ((pre_rna_seq gene_seq strand).length : ℤ) - (transcript_seq.length : ℤ) ∧
    (gen_elongation_reaction gene_seq strand transcript_seq).h2o =
      -(((pre_rna_seq gene_seq strand).length : ℤ) - (transcript_seq.length : ℤ) - 1) ∧
    (gen_elongation_reaction gene_seq strand transcript_seq).h =
      ((pre_rna_seq gene_seq strand).length : ℤ) - (transcript_seq.length : ℤ) - 1 ∧
    (gen_elongation_reaction gene_seq strand transcript_seq).ppi =
      ((pre_rna_seq gene_seq strand).length : ℤ) - 1 := by
  have hpre := countBase_sum (pre_rna_seq gene_seq strand)
  have hseq := countBase_sum transcript_seq
  refine ⟨?_, ?_, ?_, ?_, ?_⟩ <;>
    simp [gen_elongation_reaction, ntp_consumed, nmp_produced, ntp_count_of] <;>
    omega

/-- C1 (counterexample): for a gene of length 6 spliced into a transcript of
length 4, the elongation reaction consumes 6 NTPs and produces 2 NMPs, so
neither equals the transcript length 4 as the claim states. -/
theorem elongation_reaction_balance_claim_false :
    c1_transcript_seq.length = 4 ∧
    ntp_consumed (gen_elongation_reaction c1_gene_seq Strand.positive c1_transcript_seq) = 6 ∧
    nmp_produced (gen_elongation_reaction c1_gene_seq Strand.positive c1_transcript_seq) = 2 ∧
    ¬ (ntp_consumed (gen_elongation_reaction c1_gene_seq Strand.positive c1_transcript_seq) =
         (c1_transcript_seq.length : ℤ) ∧
       nmp_produced (gen_elongation_reaction c1_gene_seq Strand.positive c1_transcript_seq) =
         (c1_transcript_seq.length : ℤ)) := by
  decide

/-- C2: for non-zero half-life and doubling time, `calc_avg_syn_rate` is
`ln2 · (1/t_d + 1/t_h) · c` and `calc_avg_deg_rate` is `ln2/t_h · c`
(utils.py lines 16-44). -/
theorem calc_avg_rate_formulas (ln2 c t_h t_d : ℚ) (hh : t_h ≠ 0) (hd : t_d ≠ 0) :
    calc_avg_syn_rate ln2 c t_h t_d = ln2 * (1 / t_d + 1 / t_h) * c ∧
    calc_avg_deg_rate ln2 c t_h = ln2 / t_h * c :=
  ⟨rfl, rfl⟩

/-- Witness for C2 at `ln2 = 7/10`, `c = 1`, `t_h = 2`, `t_d = 4`. -/
theorem calc_avg_rate_formulas_witness :
    calc_avg_syn_rate (7/10) 1 2 4 = (7/10) * (1 / 4 + 1 / 2) * 1 ∧
    calc_avg_deg_rate (7/10) 1 2 = (7/10) / 2 * 1 :=
  calc_avg_rate_formulas (7/10) 1 2 4 (by decide) (by decide)

/-- C10: `calc_avg_syn_rate` and `calc_avg_deg_rate` raise `ZeroDivisionError`
when the half-life is 0 (and, for the synthesis rate, also when the doubling
time is 0); for non-zero denominators they return the computed rate; callers
patch a zero half-life to `12*60*60` before use
(translation.py lines 106-107), which always yields a non-zero half-life. -/
theorem calc_avg_rates_zero_half_life :
    (∀ ln2 c t_d : ℚ, calc_avg_syn_rate_run ln2 c 0 t_d =
       Except.error "ZeroDivisionError: float division by zero") ∧
    (∀ ln2 c : ℚ, calc_avg_deg_rate_run ln2 c 0 =
       Except.error "ZeroDivisionError: float division by zero") ∧
    (∀ ln2 c t_h t_d : ℚ, t_h ≠ 0 → t_d ≠ 0 →
       calc_avg_syn_rate_run ln2 c t_h t_d =
         Except.ok (calc_avg_syn_rate ln2 c t_h t_d)) ∧
    (∀ ln2 c t_h : ℚ, t_h ≠ 0 →
       calc_avg_deg_rate_run ln2 c t_h = Except.ok (calc_avg_deg_rate ln2 c t_h)) ∧
    patch_half_life 0 = 12 * 60 * 60 ∧
    (∀ t_h : ℚ, patch_half_life t_h ≠ 0) := by
  refine ⟨?_, ?_, ?_, ?_, rfl, ?_⟩
  · intro ln2 c t_d
    unfold calc_avg_syn_rate_run pyDiv
    by_cases hd : t_d = 0 <;> simp [hd]
  · intro ln2 c
    unfold calc_avg_deg_rate_run pyDiv
    simp
  · intro ln2 c t_h t_d hh hd
    unfold calc_avg_syn_rate_run pyDiv calc_avg_syn_rate
    simp [hh, hd]
  · intro ln2 c t_h hh
    unfold calc_avg_deg_rate_run pyDiv calc_avg_deg_rate
    simp [hh]
  · intro t_h
    unfold patch_half_life
    by_cases h0 : t_h = 0 <;> simp [h0]

/-- Witness for C10 at concrete inputs. -/
theorem calc_avg_rates_zero_half_life_witness :
    calc_avg_syn_rate_run (7/10) 1 0 5 =
      Except.error "ZeroDivisionError: float division by zero" ∧
    calc_avg_deg_rate_run (7/10) 1 0 =
      Except.error "ZeroDivisionError: float division by zero" ∧
    calc_avg_syn_rate_run (7/10) 1 2 4 = Except.ok (calc_avg_syn_rate (7/10) 1 2 4) ∧
    calc_avg_deg_rate_run (7/10) 1 2 = Except.ok (calc_avg_deg_rate (7/10) 1 2) ∧
    patch_half_life 0 = 12 * 60 * 60 :=
  ⟨calc_avg_rates_zero_half_life.1 (7/10) 1 5,
   calc_avg_rates_zero_half_life.2.1 (7/10) 1,
   calc_avg_rates_zero_half_life.2.2.1 (7/10) 1 2 4 (by decide) (by decide),
   calc_avg_rates_zero_half_life.2.2.2.1 (7/10) 1 2 (by decide),
   calc_avg_rates_zero_half_life.2.2.2.2.1⟩

/-- C8: the mass-action rate-constant unit (utils.py lines 181-187) is `s^-1`
for one reactant entry, `s^-1 * molecule` for zero reactant entries, and
`s^-1 * molecule^{-(n-1)}` for `n` reactant entries otherwise; a successful
`gen_mass_action_rate_law` assigns exactly this unit to the rate constant. -/
theorem mass_action_rate_constant_units (reaction : Reaction) :
    mass_action_k_unit reaction =
      (if reaction.get_reactants.length = 1 then "s^-1"
       else if reaction.get_reactants.length = 0 then "s^-1 * molecule"
       else "s^-1 * molecule^" ++
         toString (-((reaction.get_reactants.length : ℤ) - 1))) ∧
    (∀ model_k_id modifiers modifier_reactants res,
       gen_mass_action_rate_law reaction model_k_id modifiers modifier_reactants =
         some res →
       res.model_k = ⟨model_k_id, mass_action_k_unit reaction⟩) := by
  constructor
  · unfold mass_action_k_unit
    by_cases h1 : reaction.get_reactants.length = 1
    · simp [h1]
    · by_cases h0 : reaction.get_reactants.length = 0
      · simp [h0]
      · have hu0 : ¬ ((reaction.get_reactants.length : ℤ) - 1 = 0) := by omega
        have hu1 : ¬ ((reaction.get_reactants.length : ℤ) - 1 = -1) := by omega
        simp [h1, h0, hu0, hu1]
  · intro model_k_id modifiers modifier_reactants res h
    unfold gen_mass_action_rate_law at h
    split at h
    · have := Option.some.inj h
      subst this
      rfl
    · exact Option.noConfusion h

/-- Witness for C8: a reaction with three reactant entries gets the unit
`s^-1 * molecule^-2`. -/
theorem mass_action_rate_constant_units_witness :
    mass_action_k_unit c8_reaction = "s^-1 * molecule^-2" ∧
    (MassActionRateLaw.mk (mass_action_expression c8_reaction "k" [])
        (mass_action_namespace c8_reaction [] [])
        ⟨"k", mass_action_k_unit c8_reaction⟩).model_k =
      ⟨"k", mass_action_k_unit c8_reaction⟩ :=
  ⟨(mass_action_rate_constant_units c8_reaction).1.trans (by decide),
   (mass_action_rate_constant_units c8_reaction).2 "k" [] []
     (MassActionRateLaw.mk (mass_action_expression c8_reaction "k" [])
        (mass_action_namespace c8_reaction [] [])
        ⟨"k", mass_action_k_unit c8_reaction⟩) rfl⟩

/-- C7: `clean_and_validate_options` (transcription.py lines 49-71) errors
when `rna_pol_pair` is absent — and the submodel pipeline then generates no
reactions — and otherwise fills absent options with the defaults `beta = 1`,
`beta_activator = 1`, `beta_repressor = 1`, `activator_effect = 1.2`,
`polr_occupancy_width = 80` while leaving supplied values unchanged. -/
theorem clean_and_validate_options_behaviour :
    (∀ options : TranscriptionOptions, options.rna_pol_pair = none →
       clean_and_validate_options options =
         Except.error "The dictionary rna_pol_pair has not been provided") ∧
    (∀ (options : TranscriptionOptions) (transcripts : List TranscriptInput),
       options.rna_pol_pair = none →
       transcription_phases options transcripts =
         Except.error "The dictionary rna_pol_pair has not been provided") ∧
    (∀ (options : TranscriptionOptions) pair, options.rna_pol_pair = some pair →
       clean_and_validate_options options = Except.ok
         { rna_pol_pair := pair
           beta := options.beta.getD 1
           beta_activator := options.beta_activator.getD 1
           beta_repressor := options.beta_repressor.getD 1
           activator_effect := options.activator_effect.getD 1.2
           polr_occupancy_width := options.polr_occupancy_width.getD 80 }) := by
  refine ⟨?_, ?_, ?_⟩
  · intro options h
    simp [clean_and_validate_options, h]
  · intro options transcripts h
    simp [transcription_phases, clean_and_validate_options, h]
  · intro options pair h
    simp [clean_and_validate_options, h]

/-- Witness for C7: a missing `rna_pol_pair` errors; a supplied `beta = 2`
with every other option absent yields `beta = 2` and the defaults. -/
theorem clean_and_validate_options_behaviour_witness :
    clean_and_validate_options ⟨none, some 2, none, none, none, none⟩ =
      Except.error "The dictionary rna_pol_pair has not been provided" ∧
    transcription_phases ⟨none, some 2, none, none, none, none⟩ [] =
      Except.error "The dictionary rna_pol_pair has not been provided" ∧
    clean_and_validate_options
        ⟨some [("mRNA", "polII")], some 2, none, none, none, none⟩ =
      Except.ok ⟨[("mRNA", "polII")], 2, 1, 1, 1.2, 80⟩ :=
  ⟨clean_and_validate_options_behaviour.1 _ rfl,
   clean_and_validate_options_behaviour.2.1 _ [] rfl,
   clean_and_validate_options_behaviour.2.2 _ [("mRNA", "polII")] rfl⟩

/-- The first calibration pass assigns the solved value to each determined
k_cat and collects exactly the determined values, in loop order. -/
theorem calibrate_pass1_eq (l : List KcatCalibInput) :
    calibrate_pass1 l =
      (l.map (fun e => if kcat_determined e then some (kcat_solved_value e) else none),
       (l.filter kcat_determined).map kcat_solved_value) := by
  induction l with
  | nil => rfl
  | cons e t ih =>
    unfold calibrate_pass1
    rw [ih]
    by_cases h : kcat_determined e <;> simp [h, List.filter_cons]

/-- C3: the k_cat calibration (transcription.py lines 746-791) is two-pass:
every transcript whose gene-bound polymerase concentration and target average
rate are both non-zero keeps the value solved for it in the first pass, and
every other k_cat is set to the median of all the determined values — those
solved anywhere in the whole loop, later transcripts included. -/
theorem calibrate_kcats_two_pass (l : List KcatCalibInput) (i : ℕ)
    (hi : i < l.length) :
    (kcat_determined l[i] = true →
       (calibrate_kcats l).getD i 0 = kcat_solved_value l[i]) ∧
    (kcat_determined l[i] = false →
       l.filter kcat_determined ≠ [] →
       (calibrate_kcats l).getD i 0 =
         npMedian ((l.filter kcat_determined).map kcat_solved_value)) := by
  have hv : (calibrate_kcats l).getD i 0 =
      (if kcat_determined l[i] then kcat_solved_value l[i]
       else npMedian ((l.filter kcat_determined).map kcat_solved_value)) := by
    unfold calibrate_kcats
    rw [calibrate_pass1_eq]
    simp only [List.map_map]
    rw [List.getD_eq_getElem?_getD, List.getElem?_map,
      List.getElem?_eq_getElem hi]
    by_cases h : kcat_determined l[i] <;> simp [h]
  constructor
  · intro h
    rw [hv, if_pos h]
  · intro h _
    rw [hv, if_neg (by simp [h])]

/-- Witness for C3: with determined inputs solving to 1 and 3 around an
undetermined middle input, the middle k_cat becomes the median 2 and the
determined ones keep their solved values. -/
theorem calibrate_kcats_two_pass_witness :
    (calibrate_kcats [⟨1, 2, 2⟩, ⟨0, 5, 1⟩, ⟨2, 3, 1⟩]).getD 1 0 =
      npMedian ((([⟨1, 2, 2⟩, ⟨0, 5, 1⟩, ⟨2, 3, 1⟩] :
        List KcatCalibInput).filter kcat_determined).map kcat_solved_value) ∧
    (calibrate_kcats [⟨1, 2, 2⟩, ⟨0, 5, 1⟩, ⟨2, 3, 1⟩]).getD 0 0 =
      kcat_solved_value (⟨1, 2, 2⟩ : KcatCalibInput) ∧
    calibrate_kcats [⟨1, 2, 2⟩, ⟨0, 5, 1⟩, ⟨2, 3, 1⟩] = [1, 2, 3] :=
  ⟨(calibrate_kcats_two_pass [⟨1, 2, 2⟩, ⟨0, 5, 1⟩, ⟨2, 3, 1⟩] 1
      (by decide)).2 (by decide) (by decide),
   (calibrate_kcats_two_pass [⟨1, 2, 2⟩, ⟨0, 5, 1⟩, ⟨2, 3, 1⟩] 0
      (by decide)).1 (by decide),
   by norm_num [calibrate_kcats, calibrate_pass1, kcat_determined,
     kcat_solved_value, npMedian, sortQ, insertSorted]⟩

/-- Membership in the flattened modifier species list. -/
theorem mem_modifier_species (modifiers : List Observable) (s : Species) :
    s ∈ modifier_species modifiers ↔ ∃ m ∈ modifiers, s ∈ m.expression_species := by
  simp [modifier_species, List.mem_flatten]

/-- The reactants kept by the code's filter are exactly the spec's saturated
reactants. -/
theorem mm_kept_eq (reaction : Reaction) (modifiers : List Observable)
    (modifier_reactants : List Species) :
    mm_kept_reactants reaction modifiers modifier_reactants =
    mm_spec_saturated_reactants reaction modifiers modifier_reactants := by
  unfold mm_kept_reactants mm_spec_saturated_reactants
  apply List.filter_congr
  intro s _
  simp [decide_eq_decide, mem_modifier_species]

/-- The inserted parameter is a member of the dict after insertion. -/
theorem insertParam_mem_self (ps : List Parameter) (q : Parameter) :
    q ∈ insertParam ps q := by
  unfold insertParam
  by_cases hc : (ps.any (fun r => r.id = q.id)) = true
  · rw [if_pos hc]
    obtain ⟨e, he, heq⟩ := List.any_eq_true.mp hc
    exact List.mem_map.mpr ⟨e, he, by simp [of_decide_eq_true heq]⟩
  · rw [if_neg hc]
    exact List.mem_append_right _ (List.mem_singleton.mpr rfl)

/-- Insertion preserves the presence of a parameter with a given id. -/
theorem exists_id_mem_insertParam (ps : List Parameter) (q : Parameter)
    (tgt : String) (h : ∃ p ∈ ps, p.id = tgt) :
    ∃ p ∈ insertParam ps q, p.id = tgt := by
  obtain ⟨p, hp, hid⟩ := h
  unfold insertParam
  by_cases hc : (ps.any (fun r => r.id = q.id)) = true
  · rw [if_pos hc]
    by_cases he : p.id = q.id
    · exact ⟨q, List.mem_map.mpr ⟨p, hp, by simp [he]⟩, by rw [← he, hid]⟩
    · exact ⟨p, List.mem_map.mpr ⟨p, hp, by simp [he]⟩, hid⟩
  · rw [if_neg hc]
    exact ⟨p, List.mem_append_left _ hp, hid⟩

/-- Insertion of a parameter with units `M` preserves the presence of a
parameter with a given id and units `M`. -/
theorem exists_units_mem_insertParam (ps : List Parameter) (q : Parameter)
    (tgt : String) (h : ∃ p ∈ ps, p.id = tgt ∧ p.units = "M")
    (hq : q.units = "M") :
    ∃ p ∈ insertParam ps q, p.id = tgt ∧ p.units = "M" := by
  obtain ⟨p, hp, hid, hu⟩ := h
  unfold insertParam
  by_cases hc : (ps.any (fun r => r.id = q.id)) = true
  · rw [if_pos hc]
    by_cases he : p.id = q.id
    · exact ⟨q, List.mem_map.mpr ⟨p, hp, by simp [he]⟩, by rw [← he, hid], hq⟩
    · exact ⟨p, List.mem_map.mpr ⟨p, hp, by simp [he]⟩, hid, hu⟩
  · rw [if_neg hc]
    exact ⟨p, List.mem_append_left _ hp, hid, hu⟩

/-- The K_m fold of `gen_michaelis_menten_like_rate_law` preserves the
presence of a parameter with a given id and units `M`. -/
theorem km_fold_preserves_units (rid : String) (l : List Species)
    (acc : List Parameter) (tgt : String)
    (h : ∃ p ∈ acc, p.id = tgt ∧ p.units = "M") :
    ∃ p ∈ l.foldl
        (fun a s => insertParam a ⟨"K_m_" ++ rid ++ "_" ++ s.species_type_id, "M"⟩)
        acc,
      p.id = tgt ∧ p.units = "M" := by
  induction l generalizing acc with
  | nil => exact h
  | cons a t ih => exact ih _ (exists_units_mem_insertParam _ _ _ h rfl)

/-- The K_m fold preserves the presence of a parameter with a given id. -/
theorem km_fold_preserves_id (rid : String) (l : List Species)
    (acc : List Parameter) (tgt : String) (h : ∃ p ∈ acc, p.id = tgt) :
    ∃ p ∈ l.foldl
        (fun a s => insertParam a ⟨"K_m_" ++ rid ++ "_" ++ s.species_type_id, "M"⟩)
        acc,
      p.id = tgt := by
  induction l generalizing acc with
  | nil => exact h
  | cons a t ih => exact ih _ (exists_id_mem_insertParam _ _ _ h)

/-- After the K_m fold, every folded species has its K_m parameter, with
units `M`, in the dict. -/
theorem km_fold_mem (rid : String) (l : List Species) (acc : List Parameter) :
    ∀ s ∈ l,
      ∃ p ∈ l.foldl
          (fun a s => insertParam a ⟨"K_m_" ++ rid ++ "_" ++ s.species_type_id, "M"⟩)
          acc,
        p.id = "K_m_" ++ rid ++ "_" ++ s.species_type_id ∧ p.units = "M" := by
  induction l generalizing acc with
  | nil =>
    intro s hs
    exact absurd hs (List.not_mem_nil s)
  | cons a t ih =>
    intro s hs
    rcases List.mem_cons.mp hs with h | h
    · subst h
      exact km_fold_preserves_units rid t _ _
        ⟨⟨"K_m_" ++ rid ++ "_" ++ s.species_type_id, "M"⟩,
         insertParam_mem_self _ _, rfl, rfl⟩
    · exact ih _ s h

/-- Insertion leaves the id list unchanged when the id is already present and
appends it otherwise, so it preserves the distinctness of the dict's ids. -/
theorem nodup_ids_insertParam (ps : List Parameter) (q : Parameter)
    (h : (ps.map Parameter.id).Nodup) :
    ((insertParam ps q).map Parameter.id).Nodup := by
  unfold insertParam
  by_cases hc : (ps.any (fun r => r.id = q.id)) = true
  · rw [if_pos hc]
    have hmap : (ps.map (fun r => if r.id = q.id then q else r)).map Parameter.id =
        ps.map Parameter.id := by
      rw [List.map_map]
      apply List.map_congr_left
      intro r _
      by_cases hr : r.id = q.id
      · simp [hr]
      · simp [hr]
    rw [hmap]
    exact h
  · rw [if_neg hc]
    rw [List.map_append]
    refine List.Nodup.append h (List.nodup_singleton _) ?_
    intro a ha hb
    rw [List.map_singleton, List.mem_singleton] at hb
    subst hb
    obtain ⟨p, hp, hpq⟩ := List.mem_map.mp ha
    simp only [List.any_eq_true, decide_eq_true_eq, not_exists] at hc
    exact hc p ⟨hp, hpq⟩

/-- The K_m fold preserves the distinctness of the dict's ids. -/
theorem km_fold_nodup (rid : String) (l : List Species) (acc : List Parameter)
    (h : (acc.map Parameter.id).Nodup) :
    ((l.foldl
        (fun a s => insertParam a ⟨"K_m_" ++ rid ++ "_" ++ s.species_type_id, "M"⟩)
        acc).map Parameter.id).Nodup := by
  induction l generalizing acc with
  | nil => exact h
  | cons a t ih => exact ih _ (nodup_ids_insertParam _ _ h)

/-- `"Avogadro"` is never a `k_cat` id. -/
theorem avogadro_ne_kcat (rid : String) : ("Avogadro" : String) ≠ "k_cat_" ++ rid := by
  intro h
  have h2 := congrArg String.data h
  simp [String.data_append] at h2

/-- C4: `gen_michaelis_menten_like_rate_law` (utils.py lines 47-137) builds
the product of the single `k_cat` parameter, the identifiers of all modifier
observables, and one saturation factor `S/(S + K_m·Avogadro·Volume)` for
exactly the reactants that are not species of any modifier observable unless
listed in `modifier_reactants`; each such reactant gets a per-species `K_m`
parameter with units `M`; parameter ids are distinct (a dict), with one
`k_cat`; and with no qualifying reactant the expression degenerates to `k_cat`
times the modifier product. -/
theorem gen_mm_rate_law_shape (volume_id : String → String) (reaction : Reaction)
    (modifiers : List Observable) (modifier_reactants : List Species) :
    (gen_michaelis_menten_like_rate_law volume_id reaction modifiers
        modifier_reactants).expression =
      "k_cat_" ++ reaction.id ++
        (if modifiers.isEmpty then "" else
          " * " ++ String.intercalate " * " (modifiers.map (·.id))) ++
        (if (mm_spec_saturated_reactants reaction modifiers modifier_reactants).isEmpty
         then "" else
          " * " ++ String.intercalate " * "
            ((mm_spec_saturated_reactants reaction modifiers modifier_reactants).map
              (mm_saturation_term volume_id reaction.id))) ∧
    (∀ s ∈ mm_spec_saturated_reactants reaction modifiers modifier_reactants,
       ∃ p ∈ (gen_michaelis_menten_like_rate_law volume_id reaction modifiers
           modifier_reactants).parameters,
         p.id = "K_m_" ++ reaction.id ++ "_" ++ s.species_type_id ∧ p.units = "M") ∧
    (∃ p ∈ (gen_michaelis_menten_like_rate_law volume_id reaction modifiers
        modifier_reactants).parameters,
       p.id = "k_cat_" ++ reaction.id) ∧
    ((gen_michaelis_menten_like_rate_law volume_id reaction modifiers
        modifier_reactants).parameters.map Parameter.id).Nodup ∧
    (mm_spec_saturated_reactants reaction modifiers modifier_reactants = [] →
       (gen_michaelis_menten_like_rate_law volume_id reaction modifiers
           modifier_reactants).expression =
         "k_cat_" ++ reaction.id ++
           (if modifiers.isEmpty then "" else
             " * " ++ String.intercalate " * " (modifiers.map (·.id)))) := by
  have hkept := mm_kept_eq reaction modifiers modifier_reactants
  have hexpr : (gen_michaelis_menten_like_rate_law volume_id reaction modifiers
      modifier_reactants).expression =
      "k_cat_" ++ reaction.id ++
        (if modifiers.isEmpty then "" else
          " * " ++ String.intercalate " * " (modifiers.map (·.id))) ++
        (if (mm_spec_saturated_reactants reaction modifiers modifier_reactants).isEmpty
         then "" else
          " * " ++ String.intercalate " * "
            ((mm_spec_saturated_reactants reaction modifiers modifier_reactants).map
              (mm_saturation_term volume_id reaction.id))) := by
    show mm_expression_str volume_id reaction modifiers modifier_reactants = _
    unfold mm_expression_str mm_k_cat_id
    rw [hkept]
    cases hsp : mm_spec_saturated_reactants reaction modifiers modifier_reactants with
    | nil => simp
    | cons a t => simp
  refine ⟨hexpr, ?_, ?_, ?_, ?_⟩
  · intro s hs
    rw [← hkept] at hs
    show ∃ p ∈ mm_parameters reaction modifiers modifier_reactants, _
    unfold mm_parameters
    exact km_fold_mem reaction.id _ _ s hs
  · show ∃ p ∈ mm_parameters reaction modifiers modifier_reactants, _
    unfold mm_parameters
    apply km_fold_preserves_id
    exact ⟨⟨mm_k_cat_id reaction, mm_k_cat_units modifiers⟩,
      insertParam_mem_self _ _, rfl⟩
  · show ((mm_parameters reaction modifiers modifier_reactants).map Parameter.id).Nodup
    unfold mm_parameters
    apply km_fold_nodup
    have hne := avogadro_ne_kcat reaction.id
    unfold insertParam mm_k_cat_id
    simp [hne]
  · intro h
    rw [hexpr, h]
    simp

/-- Witness for C4 on the `test_utils.py` configuration: reactants `s1[c]`,
`s2[c]`, modifier `e1`, reproducing the asserted expression of test line 54;
and the degenerate reaction `r5` whose only reactant is a modifier species. -/
theorem gen_mm_rate_law_shape_witness :
    (gen_michaelis_menten_like_rate_law (fun c => "volume_" ++ c) c4_reaction
        c4_modifiers []).expression =
      "k_cat_r1 * e1 * (s1[c] / (s1[c] + K_m_r1_s1 * Avogadro * volume_c)) * (s2[c] / (s2[c] + K_m_r1_s2 * Avogadro * volume_c))" ∧
    (∃ p ∈ (gen_michaelis_menten_like_rate_law (fun c => "volume_" ++ c) c4_reaction
        c4_modifiers []).parameters, p.id = "K_m_r1_s1" ∧ p.units = "M") ∧
    (∃ p ∈ (gen_michaelis_menten_like_rate_law (fun c => "volume_" ++ c) c4_reaction
        c4_modifiers []).parameters, p.id = "k_cat_r1") ∧
    (gen_michaelis_menten_like_rate_law (fun c => "volume_" ++ c)
        c4_reaction_degenerate c4_modifiers []).expression = "k_cat_r5 * e1" :=
  ⟨(gen_mm_rate_law_shape (fun c => "volume_" ++ c) c4_reaction c4_modifiers []).1.trans
     (by decide),
   (gen_mm_rate_law_shape (fun c => "volume_" ++ c) c4_reaction c4_modifiers []).2.1
     ⟨"s1", "c"⟩ (by decide),
   (gen_mm_rate_law_shape (fun c => "volume_" ++ c) c4_reaction c4_modifiers []).2.2.1,
   ((gen_mm_rate_law_shape (fun c => "volume_" ++ c) c4_reaction_degenerate
       c4_modifiers []).2.2.2.2 (by decide)).trans (by decide)⟩

/-- C6: `gen_mass_action_rate_law` (utils.py lines 140-237) fails exactly when
some reactant belongs to a modifier observable's species and is not listed in
`modifier_reactants` — such a reactant is referenced by the expression but
omitted from the species namespace, so deserialization cannot resolve it —
and otherwise returns the validated rate law. -/
theorem gen_mass_action_symbol_resolution (reaction : Reaction)
    (model_k_id : String) (modifiers : List Observable)
    (modifier_reactants : List Species) :
    (gen_mass_action_rate_law reaction model_k_id modifiers modifier_reactants =
        none ↔
      ∃ s ∈ reaction.get_reactants,
        s ∈ modifier_species modifiers ∧ s ∉ modifier_reactants) ∧
    ((∀ s ∈ reaction.get_reactants,
        s ∉ modifier_species modifiers ∨ s ∈ modifier_reactants) →
      gen_mass_action_rate_law reaction model_k_id modifiers modifier_reactants =
        some ⟨mass_action_expression reaction model_k_id modifiers,
              mass_action_namespace reaction modifiers modifier_reactants,
              ⟨model_k_id, mass_action_k_unit reaction⟩⟩) := by
  have hmem : ∀ s : Species,
      s ∈ mass_action_referenced reaction ↔ s ∈ reaction.get_reactants := by
    intro s
    unfold mass_action_referenced mass_action_pool
    simp only [List.mem_filter, List.mem_dedup, List.mem_append,
      decide_eq_true_eq]
    tauto
  have hns : ∀ s : Species, s ∈ reaction.get_reactants →
      (s ∈ mass_action_namespace reaction modifiers modifier_reactants ↔
        (s ∉ modifier_species modifiers ∨ s ∈ modifier_reactants)) := by
    intro s hs
    unfold mass_action_namespace mass_action_pool
    simp [List.mem_filter, List.mem_dedup, List.mem_append, hs]
  have hcond : ((mass_action_referenced reaction).all
      (fun s => s ∈ mass_action_namespace reaction modifiers modifier_reactants))
        = true ↔
      ∀ s ∈ reaction.get_reactants,
        s ∉ modifier_species modifiers ∨ s ∈ modifier_reactants := by
    rw [List.all_eq_true]
    constructor
    · intro h s hs
      have h2 := h s ((hmem s).mpr hs)
      rw [decide_eq_true_eq] at h2
      exact (hns s hs).mp h2
    · intro h s hs
      rw [decide_eq_true_eq]
      have hs2 := (hmem s).mp hs
      exact (hns s hs2).mpr (h s hs2)
  constructor
  · constructor
    · intro h
      unfold gen_mass_action_rate_law at h
      by_cases hc : ((mass_action_referenced reaction).all
          (fun s => s ∈ mass_action_namespace reaction modifiers
            modifier_reactants)) = true
      · rw [if_pos hc] at h
        exact Option.noConfusion h
      · have h3 := (not_iff_not.mpr hcond).mp hc
        push_neg at h3
        obtain ⟨s, hs, hcontra⟩ := h3
        exact ⟨s, hs, hcontra⟩
    · intro h
      unfold gen_mass_action_rate_law
      have hc : ¬ ((mass_action_referenced reaction).all
          (fun s => s ∈ mass_action_namespace reaction modifiers
            modifier_reactants)) = true := by
        intro hc
        obtain ⟨s, hs, hms, hmr⟩ := h
        rcases hcond.mp hc s hs with h1 | h2
        · exact h1 hms
        · exact hmr h2
      rw [if_neg hc]
  · intro h
    unfold gen_mass_action_rate_law
    rw [if_pos (hcond.mpr h)]

/-- Witness for C6: with the reactant `s1[c]` inside the modifier observable
`e2` and absent from `modifier_reactants`, generation fails; listing it in
`modifier_reactants` makes every symbol resolve and a rate law is returned. -/
theorem gen_mass_action_symbol_resolution_witness :
    gen_mass_action_rate_law c6_reaction "k_r2" c6_modifiers [] = none ∧
    gen_mass_action_rate_law c6_reaction "k_r2" c6_modifiers [⟨"s1", "c"⟩] =
      some ⟨mass_action_expression c6_reaction "k_r2" c6_modifiers,
            mass_action_namespace c6_reaction c6_modifiers [⟨"s1", "c"⟩],
            ⟨"k_r2", mass_action_k_unit c6_reaction⟩⟩ :=
  ⟨(gen_mass_action_symbol_resolution c6_reaction "k_r2" c6_modifiers []).1.mpr
     ⟨⟨"s1", "c"⟩, by decide, by decide, by decide⟩,
   (gen_mass_action_symbol_resolution c6_reaction "k_r2" c6_modifiers
     [⟨"s1", "c"⟩]).2 (by decide)⟩

/-- Appending the same string on the right is cancellable. -/
theorem string_append_right_cancel (x y s : String) (h : x ++ s = y ++ s) :
    x = y := by
  have h2 := congrArg String.data h
  simp [String.data_append] at h2
  exact String.ext h2

/-- Species ids `a[comp]` coincide only for the same species-type id. -/
theorem species_id_inj (a b comp : String)
    (h : a ++ "[" ++ comp ++ "]" = b ++ "[" ++ comp ++ "]") : a = b :=
  string_append_right_cancel _ _ _
    (string_append_right_cancel _ _ _ (string_append_right_cancel _ _ _ h))

/-- C5 (counterexample): in the repository's own complexation test, the
subunit `prot3` has stoichiometric coefficient 0 (test_complexation.py line
65), yet the asserted participants include `prot3[n]` with coefficient −1 in
the association reaction (line 153) and +1 in the dissociation reactions of
`prot1` and `prot2` (lines 160 and 164), so the zero-coefficient subunit is
not excluded from the stoichiometry. -/
theorem zero_subunit_excluded_claim_false :
    ("prot3", 0) ∈ complex1_subunits ∧
    ("prot3[n]", -1) ∈ complex1_association_participants ∧
    ("prot3[n]", 1) ∈ complex1_dissociate_prot1_participants ∧
    ("prot3[n]", 1) ∈ complex1_dissociate_prot2_participants := by
  decide

/-- C5 (amended): a subunit with stoichiometric coefficient 0 participates as
if its coefficient were 1: it is consumed with coefficient −1 by the
association reaction, released with coefficient +1 by the dissociation
reaction of every other subunit, and absent only from its own dissociation
reaction; the modelled generator reproduces the participants asserted by
test_complexation.py on `complex1`. -/
theorem zero_coefficient_subunit_stoichiometry
    (complex_id compartment target : String) (subunits : List (String × ℕ))
    (hmem : (target, 0) ∈ subunits)
    (hkeys : (subunits.map Prod.fst).Nodup)
    (hne : complex_id ≠ target) :
    (target ++ "[" ++ compartment ++ "]", -1) ∈
      gen_association_participants complex_id compartment subunits ∧
    (∀ u ∈ subunits, u.1 ≠ target →
       (target ++ "[" ++ compartment ++ "]", 1) ∈
         gen_dissociation_participants complex_id compartment u.1 subunits) ∧
    (∀ z : ℤ, (target ++ "[" ++ compartment ++ "]", z) ∉
       gen_dissociation_participants complex_id compartment target subunits) ∧
    gen_association_participants "complex1" "n" complex1_subunits =
      complex1_association_participants ∧
    complex1_dissociate_prot1_participants.filter
        (fun p => p.1 ∈ ["complex1[n]", "prot1[n]", "prot2[n]", "prot3[n]"]) =
      gen_dissociation_participants "complex1" "n" "prot1" complex1_subunits ∧
    complex1_dissociate_prot3_participants.filter
        (fun p => p.1 ∈ ["complex1[n]", "prot1[n]", "prot2[n]", "prot3[n]"]) =
      gen_dissociation_participants "complex1" "n" "prot3" complex1_subunits := by
  refine ⟨?_, ?_, ?_, by decide, by decide, by decide⟩
  · unfold gen_association_participants
    apply List.mem_append_left
    exact List.mem_map.mpr ⟨(target, 0), hmem, by simp⟩
  · intro u hu hut
    unfold gen_dissociation_participants
    apply List.mem_append_right
    refine List.mem_filterMap.mpr ⟨(target, 0), hmem, ?_⟩
    have ht : ¬ (target = u.1) := fun hc => hut hc.symm
    simp [ht]
  · intro z hz
    unfold gen_dissociation_participants at hz
    rcases List.mem_append.mp hz with h1 | h2
    · rw [List.mem_singleton] at h1
      have hfst := congrArg Prod.fst h1
      exact hne (species_id_inj _ _ _ hfst).symm
    · obtain ⟨u, hu, heq⟩ := List.mem_filterMap.mp h2
      by_cases hrel : max (u.2 : ℤ) 1 - (if u.1 = target then 1 else 0) = 0
      · rw [if_pos hrel] at heq
        exact Option.noConfusion heq
      · rw [if_neg hrel] at heq
        have hpair := Option.some.inj heq
        have hfst := congrArg Prod.fst hpair
        have hu1 : u.1 = target := species_id_inj _ _ _ hfst
        have hueq : u = (target, 0) :=
          List.inj_on_of_nodup_map hkeys hu hmem hu1
        apply hrel
        rw [hueq]
        simp

/-- Witness for C5 on the `complex1` test data with the zero-coefficient
subunit `prot3`. -/
theorem zero_coefficient_subunit_stoichiometry_witness :
    ("prot3[n]", -1) ∈ gen_association_participants "complex1" "n" complex1_subunits ∧
    ("prot3[n]", 1) ∈
      gen_dissociation_participants "complex1" "n" "prot1" complex1_subunits ∧
    (∀ z : ℤ, ("prot3[n]", z) ∉
       gen_dissociation_participants "complex1" "n" "prot3" complex1_subunits) :=
  have h := zero_coefficient_subunit_stoichiometry "complex1" "n" "prot3"
    complex1_subunits (by decide) (by decide) (by decide)
  ⟨h.1, h.2.1 ("prot1", 1) (by decide) (by decide), h.2.2.1⟩

/-- Overwriting one record's mean leaves every other species' record as it
was. -/
theorem conc_get_set_mean_ne (st : ConcState) (id1 id2 : String) (m : Option ℚ)
    (h : id2 ≠ id1) :
    conc_get (conc_set_mean st id1 m) id2 = conc_get st id2 := by
  induction st with
  | nil => rfl
  | cons e t ih =>
    unfold conc_set_mean at ih ⊢
    simp only [List.map_cons]
    by_cases he : e.1 = id1
    · have hd : ¬ (e.1 = id2) := fun hc => h (hc ▸ he)
      rw [if_pos he]
      simp only [conc_get]
      rw [if_neg hd, if_neg hd]
      exact ih
    · rw [if_neg he]
      by_cases hd : e.1 = id2
      · simp only [conc_get]
        rw [if_pos hd, if_pos hd]
      · simp only [conc_get]
        rw [if_neg hd, if_neg hd]
        exact ih

/-- Overwriting the mean of an existing record makes the lookup return the
new mean. -/
theorem conc_get_set_mean_found (st : ConcState) (id1 : String)
    (v m : Option ℚ) (h : conc_get st id1 = some v) :
    conc_get (conc_set_mean st id1 m) id1 = some m := by
  induction st with
  | nil => exact Option.noConfusion h
  | cons e t ih =>
    unfold conc_set_mean at ih ⊢
    by_cases he : e.1 = id1
    · simp [conc_get, he]
    · rw [conc_get, if_neg he] at h
      simp [conc_get, he, ih h]

/-- Appending records does not change the lookup of a present species. -/
theorem conc_get_append_found (st l : ConcState) (id1 : String)
    (v : Option ℚ) (h : conc_get st id1 = some v) :
    conc_get (st ++ l) id1 = some v := by
  induction st with
  | nil => exact Option.noConfusion h
  | cons e t ih =>
    by_cases he : e.1 = id1
    · rw [conc_get, if_pos he] at h
      rw [List.cons_append, conc_get, if_pos he]
      exact h
    · rw [conc_get, if_neg he] at h
      rw [List.cons_append, conc_get, if_neg he]
      exact ih h

/-- Appending a record for a different species does not change a lookup. -/
theorem conc_get_append_ne (st : ConcState) (id1 id2 : String) (m : Option ℚ)
    (h : id2 ≠ id1) :
    conc_get (st ++ [(id1, m)]) id2 = conc_get st id2 := by
  induction st with
  | nil =>
    have hne : ¬ (id1 = id2) := fun hc => h hc.symm
    simp [conc_get, hne]
  | cons e t ih =>
    by_cases he : e.1 = id2
    · rw [List.cons_append, conc_get, if_pos he, conc_get, if_pos he]
    · rw [List.cons_append, conc_get, if_neg he, conc_get, if_neg he]
      exact ih

/-- `get_or_create` never changes the record of a species already present. -/
theorem conc_get_goc_found (st : ConcState) (idc id1 : String)
    (mc v : Option ℚ) (h : conc_get st id1 = some v) :
    conc_get (conc_get_or_create st idc mc) id1 = some v := by
  unfold conc_get_or_create
  by_cases hc : (st.any (fun e => e.1 = idc)) = true
  · rw [if_pos hc]
    exact h
  · rw [if_neg hc]
    exact conc_get_append_found st _ id1 v h

/-- `get_or_create` of a different species does not change a lookup. -/
theorem conc_get_goc_ne (st : ConcState) (idc id2 : String) (mc : Option ℚ)
    (h : id2 ≠ idc) :
    conc_get (conc_get_or_create st idc mc) id2 = conc_get st id2 := by
  unfold conc_get_or_create
  by_cases hc : (st.any (fun e => e.1 = idc)) = true
  · rw [if_pos hc]
  · rw [if_neg hc]
    exact conc_get_append_ne st idc id2 mc h

/-- C9 (counterexample): `gen_reactions` itself mutates the mean of an
already-set concentration: a free-polymerase record with mean 100 set before
`gen_reactions` holds mean 75 afterwards (transcription.py lines 151-155),
before `calibrate_submodel` runs. -/
theorem conc_free_polr_overwritten_in_gen_reactions :
    conc_get [("polr2[n]", some 100)] "polr2[n]" = some (some 100) ∧
    conc_get (gen_reactions_polr_conc "polr2[n]" "polr_ns_site[n]"
        "polr2_bound_ns[n]" 500 [("polr2[n]", some 100)]) "polr2[n]" =
      some (some 75) ∧
    (75 : ℚ) ≠ 100 := by
  have h34 : ((3 / 4 : ℚ) * 100) = 75 := by norm_num
  refine ⟨rfl, ?_, by norm_num⟩
  unfold gen_reactions_polr_conc conc_get_or_create conc_set_mean
  norm_num [conc_get, h34]

/-- C9 (amended): during `gen_reactions`, the only already-set concentration
mean that changes is the free RNA polymerase's, overwritten to
`floor(0.75 × its previous value)`; every other species' record is unchanged
by the polymerase and per-transcript concentration steps, and the Calibrator's
only concentration mutation touches the gene-bound polymerase record alone. -/
theorem conc_lifecycle (st : ConcState) :
    (∀ polr ns bns gs sid, sid ≠ polr → sid ≠ ns → sid ≠ bns →
       conc_get (gen_reactions_polr_conc polr ns bns gs st) sid =
         conc_get st sid) ∧
    (∀ polr ns bns gs m, conc_get st polr = some (some m) →
       conc_get (gen_reactions_polr_conc polr ns bns gs st) polr =
         some (some ((⌊(3 / 4 : ℚ) * m⌋ : ℤ) : ℚ))) ∧
    (∀ bs bg glen w sid, sid ≠ bs → sid ≠ bg →
       conc_get (gen_reactions_rna_conc bs bg glen w st) sid =
         conc_get st sid) ∧
    (∀ bg v sid, sid ≠ bg →
       conc_get (calibrate_bound_gene_conc bg v st) sid = conc_get st sid) := by
  refine ⟨?_, ?_, ?_, ?_⟩
  · intro polr ns bns gs sid h1 h2 h3
    unfold gen_reactions_polr_conc
    rw [conc_get_goc_ne _ _ _ _ h3, conc_get_goc_ne _ _ _ _ h2]
    exact conc_get_set_mean_ne _ _ _ _ h1
  · intro polr ns bns gs m h
    unfold gen_reactions_polr_conc
    rw [h]
    simp only [Option.getD_some]
    exact conc_get_goc_found _ _ _ _ _
      (conc_get_goc_found _ _ _ _ _ (conc_get_set_mean_found st polr _ _ h))
  · intro bs bg glen w sid h1 h2
    unfold gen_reactions_rna_conc conc_create
    exact (conc_get_append_ne _ bg sid none h2).trans
      (conc_get_append_ne _ bs sid _ h1)
  · intro bg v sid h
    exact conc_get_set_mean_ne _ _ _ _ h

/-- Witness for C9 (amended) on concrete states: an unrelated record
`atp[n]` is untouched by every phase step, and the free polymerase mean 100
becomes `floor(0.75 · 100)`. -/
theorem conc_lifecycle_witness :
    conc_get (gen_reactions_polr_conc "polr2[n]" "ns[n]" "bns[n]" 500
        [("polr2[n]", some 100), ("atp[n]", some 7)]) "atp[n]" =
      conc_get [("polr2[n]", some 100), ("atp[n]", some 7)] "atp[n]" ∧
    conc_get (gen_reactions_polr_conc "polr2[n]" "ns[n]" "bns[n]" 500
        [("polr2[n]", some 100), ("atp[n]", some 7)]) "polr2[n]" =
      some (some ((⌊(3 / 4 : ℚ) * 100⌋ : ℤ) : ℚ)) ∧
    conc_get (gen_reactions_rna_conc "bsite[n]" "bgene[n]" 120 80
        [("atp[n]", some 7)]) "atp[n]" =
      conc_get [("atp[n]", some 7)] "atp[n]" ∧
    conc_get (calibrate_bound_gene_conc "bgene[n]" 42 [("atp[n]", some 7)])
        "atp[n]" =
      conc_get [("atp[n]", some 7)] "atp[n]" :=
  have h := conc_lifecycle [("polr2[n]", some 100), ("atp[n]", some 7)]
  have h2 := conc_lifecycle [("atp[n]", some 7)]
  ⟨h.1 "polr2[n]" "ns[n]" "bns[n]" 500 "atp[n]" (by decide) (by decide) (by decide),
   h.2.1 "polr2[n]" "ns[n]" "bns[n]" 500 100 (by decide),
   h2.2.2.1 "bsite[n]" "bgene[n]" 120 80 "atp[n]" (by decide) (by decide),
   h2.2.2.2 "bgene[n]" 42 "atp[n]" (by decide)⟩

end WcModelGen
